import Mathlib

/-!
Shallow embedding of the cost-calculation engine of `src/app.py`
(Ontario Employee Cost Calculator).

Python floats are modelled as exact rationals (ℚ).  Python's
`ZeroDivisionError` is modelled by returning `none`: in the source,
`cost_components` divides the capped statutory amounts and the cell-phone
allowance by `annual_hours` without a guard, so when `annual_hours = 0`
the dict construction raises; the embedding returns `none` exactly in
that case.  The mutable `self.warnings` list is modelled by explicit
state passing: `cost_components` takes the incoming warnings list and
returns the extended one.  A freshly constructed `Employee` starts with
`warnings = []` (line 41 of the source), so one engine invocation is
`e.cost_components []`.
-/

/-- `fetch_contribution_rates` from `src/app.py` lines 8-13: the built-in
2025 rate constants, returned in the order
(cpp_employer, cpp_employee, ei_employer, ei_employee). -/
def fetch_contribution_rates : ℚ × ℚ × ℚ × ℚ :=
  let cpp_employer_rate : ℚ := 5.95
  let cpp_employee_rate : ℚ := 5.95
  let ei_employee_rate : ℚ := 1.64
  let ei_employer_rate : ℚ := ei_employee_rate * 1.4
  (cpp_employer_rate, cpp_employee_rate, ei_employer_rate, ei_employee_rate)

/-- 2025 contribution maximum, `src/app.py` line 16. -/
def CPP_MAX_ANNUAL : ℚ := 4055.50

/-- 2025 contribution maximum, `src/app.py` line 17. -/
def EI_MAX_EMPLOYEE : ℚ := 1049.12

/-- 2025 contribution maximum, `src/app.py` line 18. -/
def EI_MAX_EMPLOYER : ℚ := 1468.77

/-- The `Employee` object of `src/app.py` lines 20-41 (its input fields;
the mutable `warnings` list is passed explicitly to the methods). -/
structure Employee where
  name : String
  employment_type : String
  base_wage : ℚ
  weekly_hours : ℚ
  overtime_hours : ℚ
  vacation_pct : ℚ
  cpp_rate : ℚ
  ei_rate : ℚ
  wsib_rate : ℚ
  health_benefits : ℚ
  cell_phone_monthly : ℚ
  fuel_weekly : ℚ
  apply_caps : Bool := true
  apply_overtime : Bool := true
  include_vacation : Bool := true
  wsib_on_ot : Bool := true
  deriving DecidableEq

/-- `Employee.average_hourly_rate`, `src/app.py` lines 43-48.  Python's
`x if total_hours else y` is truthiness on the number, i.e. the test
`total_hours ≠ 0`. -/
def Employee.average_hourly_rate (e : Employee) : ℚ :=
  let rate : ℚ := if e.apply_overtime then 1.5 else 1.0
  let overtime_wage := e.base_wage * rate
  let total_hours := e.weekly_hours + e.overtime_hours
  let total_wages := e.weekly_hours * e.base_wage + e.overtime_hours * overtime_wage
  if total_hours = 0 then e.base_wage else total_wages / total_hours

/-- `annual_hours = (self.weekly_hours + self.overtime_hours) * 52`,
`src/app.py` line 52. -/
def Employee.annual_hours (e : Employee) : ℚ :=
  (e.weekly_hours + e.overtime_hours) * 52

/-- `annual_earnings = base * annual_hours`, `src/app.py` line 53. -/
def Employee.annual_earnings (e : Employee) : ℚ :=
  e.average_hourly_rate * e.annual_hours

/-- Raw annual CPP employer amount, `src/app.py` line 56. -/
def Employee.raw_cpp_employer (e : Employee) : ℚ :=
  e.annual_earnings * e.cpp_rate / 100

/-- Raw annual CPP employee amount, `src/app.py` line 57 (fixed 5.95). -/
def Employee.raw_cpp_employee (e : Employee) : ℚ :=
  e.annual_earnings * 5.95 / 100

/-- Raw annual EI employer amount, `src/app.py` line 58. -/
def Employee.raw_ei_employer (e : Employee) : ℚ :=
  e.annual_earnings * e.ei_rate / 100

/-- Raw annual EI employee amount, `src/app.py` line 59 (fixed 1.64). -/
def Employee.raw_ei_employee (e : Employee) : ℚ :=
  e.annual_earnings * 1.64 / 100

/-- The CPP employer amount after the cap block of `src/app.py`
lines 61-62: clamped only when `apply_caps` is set. -/
def Employee.capped_cpp_employer (e : Employee) : ℚ :=
  if e.apply_caps then min e.raw_cpp_employer CPP_MAX_ANNUAL else e.raw_cpp_employer

/-- The CPP employee amount after the cap block (line 63). -/
def Employee.capped_cpp_employee (e : Employee) : ℚ :=
  if e.apply_caps then min e.raw_cpp_employee CPP_MAX_ANNUAL else e.raw_cpp_employee

/-- The EI employer amount after the cap block (line 64). -/
def Employee.capped_ei_employer (e : Employee) : ℚ :=
  if e.apply_caps then min e.raw_ei_employer EI_MAX_EMPLOYER else e.raw_ei_employer

/-- The EI employee amount after the cap block (line 65). -/
def Employee.capped_ei_employee (e : Employee) : ℚ :=
  if e.apply_caps then min e.raw_ei_employee EI_MAX_EMPLOYEE else e.raw_ei_employee

/-- The warnings appended by `src/app.py` lines 66-69: inside the
`apply_caps` block, each line warns when the post-clamp value equals its
maximum. -/
def Employee.cap_warnings (e : Employee) (warnings : List String) : List String :=
  if e.apply_caps then
    warnings
      ++ (if e.capped_cpp_employer = CPP_MAX_ANNUAL then ["⚠️ CPP employer cap reached."] else [])
      ++ (if e.capped_cpp_employee = CPP_MAX_ANNUAL then ["⚠️ CPP employee cap reached."] else [])
      ++ (if e.capped_ei_employer = EI_MAX_EMPLOYER then ["⚠️ EI employer cap reached."] else [])
      ++ (if e.capped_ei_employee = EI_MAX_EMPLOYEE then ["⚠️ EI employee cap reached."] else [])
  else warnings

/-- The value dict returned by `cost_components`, `src/app.py`
lines 71-84, as a record (keys in source order). -/
structure CostComponents where
  baseWage : ℚ
  vacationPay : ℚ
  cppEmployer : ℚ
  cppEmployee : ℚ
  eiEmployer : ℚ
  eiEmployee : ℚ
  wsib : ℚ
  healthBenefits : ℚ
  cellPhone : ℚ
  fuelAllowance : ℚ
  deriving DecidableEq

/-- The WSIB entry, `src/app.py` lines 78-79: blended rate when
`wsib_on_ot` or no overtime, otherwise the straight base wage. -/
def Employee.wsib_component (e : Employee) : ℚ :=
  if e.wsib_on_ot = true ∨ e.overtime_hours = 0 then
    e.average_hourly_rate * e.wsib_rate / 100
  else
    e.base_wage * e.wsib_rate / 100

/-- The component values of the dict of `src/app.py` lines 71-84
(meaningful only when `annual_hours ≠ 0`; see `Employee.cost_components`). -/
def Employee.components_val (e : Employee) : CostComponents where
  baseWage := e.average_hourly_rate
  vacationPay :=
    if e.include_vacation then e.average_hourly_rate * e.vacation_pct / 100 else 0
  cppEmployer := e.capped_cpp_employer / e.annual_hours
  cppEmployee := e.capped_cpp_employee / e.annual_hours
  eiEmployer := e.capped_ei_employer / e.annual_hours
  eiEmployee := e.capped_ei_employee / e.annual_hours
  wsib := e.wsib_component
  healthBenefits := e.health_benefits
  cellPhone := e.cell_phone_monthly * 12 / e.annual_hours
  fuelAllowance :=
    if e.weekly_hours + e.overtime_hours = 0 then 0
    else e.fuel_weekly / (e.weekly_hours + e.overtime_hours)

/-- `Employee.cost_components`, `src/app.py` lines 50-84.  When
`annual_hours = 0` the source divides by zero at the `CPP (Employer)`
entry (and cell phone), raising `ZeroDivisionError`: modelled as `none`.
Otherwise returns the components and the extended warnings list. -/
def Employee.cost_components (e : Employee) (warnings : List String) :
    Option (CostComponents × List String) :=
  if e.annual_hours = 0 then none
  else some (e.components_val, e.cap_warnings warnings)

/-- `Employee.total_hourly_cost`, `src/app.py` lines 86-94: the employer
hourly sum over the eight employer-side keys in source order, the
employee hourly sum, and both annualised by `annual_hours`. -/
def Employee.total_hourly_cost (e : Employee) (warnings : List String) :
    Option (ℚ × ℚ × ℚ × ℚ × List String) :=
  match e.cost_components warnings with
  | none => none
  | some (comps, ws) =>
    let employer := comps.baseWage + comps.vacationPay + comps.cppEmployer
      + comps.eiEmployer + comps.wsib + comps.healthBenefits
      + comps.cellPhone + comps.fuelAllowance
    let employee := comps.cppEmployee + comps.eiEmployee
    let annual_hours := (e.weekly_hours + e.overtime_hours) * 52
    some (employer, employee, employer * annual_hours, employee * annual_hours, ws)

/-- The non-negativity constraints the spec assumes of validated input. -/
def ValidInput (e : Employee) : Prop :=
  0 ≤ e.base_wage ∧ 0 ≤ e.weekly_hours ∧ 0 ≤ e.overtime_hours ∧
  0 ≤ e.vacation_pct ∧ 0 ≤ e.cpp_rate ∧ 0 ≤ e.ei_rate ∧ 0 ≤ e.wsib_rate ∧
  0 ≤ e.health_benefits ∧ 0 ≤ e.cell_phone_monthly ∧ 0 ≤ e.fuel_weekly

instance (e : Employee) : Decidable (ValidInput e) := by
  unfold ValidInput; infer_instance

/-- A minimal valid employee: one weekly hour, every monetary field 0,
all flags at their defaults. -/
def eBasic : Employee :=
  { name := "", employment_type := "Full-Time", base_wage := 0,
    weekly_hours := 1, overtime_hours := 0, vacation_pct := 0,
    cpp_rate := 0, ei_rate := 0, wsib_rate := 0, health_benefits := 0,
    cell_phone_monthly := 0, fuel_weekly := 0 }

/-- A zero-hours employee (weeklyHours = overtimeHours = 0). -/
def eZeroHours : Employee :=
  { eBasic with base_wage := 20, weekly_hours := 0 }

/-- The spec's Example 2 input: baseWage 20, 40 weekly + 10 overtime
hours, overtime premium on. -/
def eExample2 : Employee :=
  { eBasic with base_wage := 20, weekly_hours := 40, overtime_hours := 10 }

/-- An input whose raw annual CPP employer amount lands exactly on the
cap: baseWage 8111/2600, 25 weekly hours, employer CPP rate 100 %, so
the raw amount is (8111/2600)·1300·100/100 = 4055.50 = CPP_MAX_ANNUAL. -/
def eCapBoundary : Employee :=
  { eBasic with base_wage := 8111/2600, weekly_hours := 25, cpp_rate := 100 }

/-- Overtime with a zero base wage: 1 overtime hour, WSIB rate 1 %. -/
def eZeroWage : Employee :=
  { eBasic with weekly_hours := 0, overtime_hours := 1, wsib_rate := 1 }

/-- The all-zero components record. -/
def cZero : CostComponents := ⟨0, 0, 0, 0, 0, 0, 0, 0, 0, 0⟩

/-- Example 2 input with a positive WSIB rate, for the amended C7. -/
def eWsib : Employee := { eExample2 with wsib_rate := 2 }

example : eBasic.cost_components [] = some (cZero, []) := by
  norm_num [Employee.cost_components, Employee.components_val, Employee.annual_hours,
    Employee.average_hourly_rate, Employee.annual_earnings, Employee.cap_warnings,
    Employee.capped_cpp_employer, Employee.capped_cpp_employee,
    Employee.capped_ei_employer, Employee.capped_ei_employee,
    Employee.raw_cpp_employer, Employee.raw_cpp_employee,
    Employee.raw_ei_employer, Employee.raw_ei_employee,
    Employee.wsib_component, eBasic, cZero,
    CPP_MAX_ANNUAL, EI_MAX_EMPLOYEE, EI_MAX_EMPLOYER]

example : eZeroHours.cost_components [] = none := by
  norm_num [Employee.cost_components, Employee.annual_hours, eZeroHours, eBasic]

example : eExample2.average_hourly_rate = 22 := by
  norm_num [Employee.average_hourly_rate, eExample2, eBasic]

example : eCapBoundary.raw_cpp_employer = CPP_MAX_ANNUAL := by
  norm_num [Employee.raw_cpp_employer, Employee.annual_earnings, Employee.annual_hours,
    Employee.average_hourly_rate, eCapBoundary, eBasic, CPP_MAX_ANNUAL]

example : (eCapBoundary.cost_components []).map Prod.snd
    = some ["⚠️ CPP employer cap reached."] := by
  norm_num [Employee.cost_components, Employee.annual_hours,
    Employee.average_hourly_rate, Employee.annual_earnings, Employee.cap_warnings,
    Employee.capped_cpp_employer, Employee.capped_cpp_employee,
    Employee.capped_ei_employer, Employee.capped_ei_employee,
    Employee.raw_cpp_employer, Employee.raw_cpp_employee,
    Employee.raw_ei_employer, Employee.raw_ei_employee,
    eCapBoundary, eBasic, CPP_MAX_ANNUAL, EI_MAX_EMPLOYEE, EI_MAX_EMPLOYER]

example : eZeroWage.wsib_component = 0 := by
  norm_num [Employee.wsib_component, Employee.average_hourly_rate, eZeroWage, eBasic]

example : ValidInput eBasic := by
  norm_num [ValidInput, eBasic]

example : eBasic.total_hourly_cost [] = some (0, 0, 0, 0, []) := by
  norm_num [Employee.total_hourly_cost, Employee.cost_components,
    Employee.components_val, Employee.annual_hours,
    Employee.average_hourly_rate, Employee.annual_earnings, Employee.cap_warnings,
    Employee.capped_cpp_employer, Employee.capped_cpp_employee,
    Employee.capped_ei_employer, Employee.capped_ei_employee,
    Employee.raw_cpp_employer, Employee.raw_cpp_employee,
    Employee.raw_ei_employer, Employee.raw_ei_employee,
    Employee.wsib_component, eBasic, cZero,
    CPP_MAX_ANNUAL, EI_MAX_EMPLOYEE, EI_MAX_EMPLOYER]

/-- Inversion: a successful `cost_components` call means the annual hours
were nonzero and the payload is the component record plus the extended
warnings. -/
lemma cost_components_some {e : Employee} {ws0 ws : List String}
    {c : CostComponents} (h : e.cost_components ws0 = some (c, ws)) :
    e.annual_hours ≠ 0 ∧ c = e.components_val ∧ ws = e.cap_warnings ws0 := by
  unfold Employee.cost_components at h
  split at h
  · exact absurd h (by simp)
  · next hah =>
      have hp := Option.some.inj h
      rw [Prod.mk.injEq] at hp
      exact ⟨hah, hp.1.symm, hp.2.symm⟩

/-- The annual earnings as a polynomial in the inputs: the division by
total hours in the blended rate cancels against the multiplication by
annual hours, and the zero-hours fallback agrees with the same formula. -/
lemma annual_earnings_formula (e : Employee) (hw : 0 ≤ e.weekly_hours)
    (ho : 0 ≤ e.overtime_hours) :
    e.annual_earnings
      = 52 * (e.weekly_hours * e.base_wage
          + e.overtime_hours * (e.base_wage * (if e.apply_overtime then (1.5 : ℚ) else 1.0))) := by
  unfold Employee.annual_earnings Employee.average_hourly_rate Employee.annual_hours
  by_cases hT : e.weekly_hours + e.overtime_hours = 0
  · have hw0 : e.weekly_hours = 0 := by linarith
    have ho0 : e.overtime_hours = 0 := by linarith
    simp [hT, hw0, ho0]
  · simp only [if_neg hT]
    field_simp
    ring

/-- The blended hourly rate of a non-negative input is non-negative. -/
lemma average_hourly_rate_nonneg (e : Employee) (hb : 0 ≤ e.base_wage)
    (hw : 0 ≤ e.weekly_hours) (ho : 0 ≤ e.overtime_hours) :
    0 ≤ e.average_hourly_rate := by
  unfold Employee.average_hourly_rate
  dsimp only
  split_ifs <;>
    first
      | assumption
      | exact div_nonneg (by nlinarith [mul_nonneg hw hb, mul_nonneg ho hb])
          (add_nonneg hw ho)

/-- Annual hours of a non-negative input are non-negative. -/
lemma annual_hours_nonneg (e : Employee) (hw : 0 ≤ e.weekly_hours)
    (ho : 0 ≤ e.overtime_hours) : 0 ≤ e.annual_hours :=
  mul_nonneg (add_nonneg hw ho) (by norm_num)

/-- Annual earnings of a non-negative input are non-negative. -/
lemma annual_earnings_nonneg (e : Employee) (hb : 0 ≤ e.base_wage)
    (hw : 0 ≤ e.weekly_hours) (ho : 0 ≤ e.overtime_hours) :
    0 ≤ e.annual_earnings :=
  mul_nonneg (average_hourly_rate_nonneg e hb hw ho) (annual_hours_nonneg e hw ho)

/-- Counting a string in an optional singleton of the same string. -/
lemma count_if_self (P : Prop) [Decidable P] (s : String) :
    List.count s (if P then [s] else []) = if P then 1 else 0 := by
  split <;> simp

/-- Counting a string in an optional singleton of a different string. -/
lemma count_if_ne (P : Prop) [Decidable P] {s t : String} (h : t ≠ s) :
    List.count s (if P then [t] else []) = 0 := by
  split
  · have hb : (t == s) = false := by simp [h]
    simp [List.count_cons, hb]
  · simp

/-- Each cap check contributes at most one warning, so one call appends
at most four. -/
lemma cap_warnings_length (e : Employee) (ws0 : List String) :
    (e.cap_warnings ws0).length ≤ ws0.length + 4 := by
  unfold Employee.cap_warnings
  split
  · have h1 : ∀ (P : Prop) [Decidable P] (s : String),
        (if P then [s] else []).length ≤ 1 := by
      intro P _ s; split <;> simp
    simp only [List.length_append]
    have a1 := h1 (e.capped_cpp_employer = CPP_MAX_ANNUAL) "⚠️ CPP employer cap reached."
    have a2 := h1 (e.capped_cpp_employee = CPP_MAX_ANNUAL) "⚠️ CPP employee cap reached."
    have a3 := h1 (e.capped_ei_employer = EI_MAX_EMPLOYER) "⚠️ EI employer cap reached."
    have a4 := h1 (e.capped_ei_employee = EI_MAX_EMPLOYEE) "⚠️ EI employee cap reached."
    omega
  · simp

/-- C1: the spec requires that a zero-hours input (weeklyHours =
overtimeHours = 0) yields a defined result with zero statutory and
cell-phone components and no warnings, and that the engine never raises
on non-negative input.  The code instead divides the capped annual
amounts and the cell-phone allowance by `annual_hours = 0`, raising
`ZeroDivisionError` (modelled as `none`): the claim is right and the
code is wrong. -/
theorem C1_zero_hours_division_error (e : Employee)
    (hw : e.weekly_hours = 0) (ho : e.overtime_hours = 0) :
    e.cost_components [] = none := by
  unfold Employee.cost_components Employee.annual_hours
  simp [hw, ho]

/-- C1 witness: the concrete zero-hours employee with baseWage 20. -/
theorem C1_zero_hours_division_error_witness :
    eZeroHours.weekly_hours = 0 ∧ eZeroHours.overtime_hours = 0 ∧
      eZeroHours.cost_components [] = none :=
  ⟨rfl, rfl, C1_zero_hours_division_error eZeroHours rfl rfl⟩

/-- C2: one engine invocation starts from the freshly constructed empty
warnings list; two invocations on identical input agree on the
components and on the warnings sequence, and a single result carries at
most 4 warnings. -/
theorem C2_pure_warning_bound (e : Employee) (c c' : CostComponents)
    (ws ws' : List String) (h : e.cost_components [] = some (c, ws))
    (h' : e.cost_components [] = some (c', ws')) :
    c = c' ∧ ws = ws' ∧ ws.length ≤ 4 := by
  obtain ⟨_, hc, hws⟩ := cost_components_some h
  obtain ⟨_, hc', hws'⟩ := cost_components_some h'
  refine ⟨hc.trans hc'.symm, hws.trans hws'.symm, ?_⟩
  rw [hws]
  simpa using cap_warnings_length e []

/-- C2 witness: the minimal valid employee, invoked twice. -/
theorem C2_pure_warning_bound_witness :
    eBasic.cost_components [] = some (cZero, []) ∧
      cZero = cZero ∧ ([] : List String) = [] ∧ ([] : List String).length ≤ 4 := by
  have h : eBasic.cost_components [] = some (cZero, []) := by
    norm_num [Employee.cost_components, Employee.components_val, Employee.annual_hours,
      Employee.average_hourly_rate, Employee.annual_earnings, Employee.cap_warnings,
      Employee.capped_cpp_employer, Employee.capped_cpp_employee,
      Employee.capped_ei_employer, Employee.capped_ei_employee,
      Employee.raw_cpp_employer, Employee.raw_cpp_employee,
      Employee.raw_ei_employer, Employee.raw_ei_employee,
      Employee.wsib_component, eBasic, cZero,
      CPP_MAX_ANNUAL, EI_MAX_EMPLOYEE, EI_MAX_EMPLOYER]
  exact ⟨h, C2_pure_warning_bound eBasic cZero cZero [] [] h h⟩

/-- C4: the blended hourly rate is baseWage when total hours are zero and
otherwise the hours-weighted average with overtime multiplier 1.5 when
the premium flag is set (else 1.0); the spec's Example 2 evaluates to
exactly 22. -/
theorem C4_blended_rate :
    (∀ e : Employee,
      (e.weekly_hours + e.overtime_hours = 0 → e.average_hourly_rate = e.base_wage) ∧
      (e.weekly_hours + e.overtime_hours ≠ 0 →
        e.average_hourly_rate
          = (e.weekly_hours * e.base_wage
              + e.overtime_hours
                * (e.base_wage * (if e.apply_overtime then (1.5 : ℚ) else 1.0)))
            / (e.weekly_hours + e.overtime_hours))) ∧
    eExample2.average_hourly_rate = 22 := by
  constructor
  · intro e
    constructor <;> intro hT <;> simp [Employee.average_hourly_rate, hT]
  · norm_num [Employee.average_hourly_rate, eExample2, eBasic]

/-- C4 witness: the zero-hours fallback at the zero-hours employee and
the weighted-average branch at the Example 2 employee. -/
theorem C4_blended_rate_witness :
    (eZeroHours.weekly_hours + eZeroHours.overtime_hours = 0 ∧
      eZeroHours.average_hourly_rate = eZeroHours.base_wage) ∧
    (eExample2.weekly_hours + eExample2.overtime_hours ≠ 0 ∧
      eExample2.average_hourly_rate
        = (eExample2.weekly_hours * eExample2.base_wage
            + eExample2.overtime_hours
              * (eExample2.base_wage * (if eExample2.apply_overtime then (1.5 : ℚ) else 1.0)))
          / (eExample2.weekly_hours + eExample2.overtime_hours)) :=
  ⟨⟨by norm_num [eZeroHours, eBasic],
    (C4_blended_rate.1 eZeroHours).1 (by norm_num [eZeroHours, eBasic])⟩,
   ⟨by norm_num [eExample2, eBasic],
    (C4_blended_rate.1 eExample2).2 (by norm_num [eExample2, eBasic])⟩⟩

/-- C5: whenever the breakdown is defined, the employer hourly total is
the sum of the eight employer-side components, the employee hourly total
is CPP employee + EI employee, and the annual totals are the hourly
totals times annualHours = (weeklyHours + overtimeHours) · 52. -/
theorem C5_totals (e : Employee) (c : CostComponents) (ws : List String)
    (h : e.cost_components [] = some (c, ws)) :
    e.total_hourly_cost []
      = some (c.baseWage + c.vacationPay + c.cppEmployer + c.eiEmployer
            + c.wsib + c.healthBenefits + c.cellPhone + c.fuelAllowance,
          c.cppEmployee + c.eiEmployee,
          (c.baseWage + c.vacationPay + c.cppEmployer + c.eiEmployer
            + c.wsib + c.healthBenefits + c.cellPhone + c.fuelAllowance)
            * ((e.weekly_hours + e.overtime_hours) * 52),
          (c.cppEmployee + c.eiEmployee) * ((e.weekly_hours + e.overtime_hours) * 52),
          ws) := by
  unfold Employee.total_hourly_cost
  rw [h]

/-- C5 witness: the totals identity at the minimal valid employee. -/
theorem C5_totals_witness :
    eBasic.cost_components [] = some (cZero, []) ∧
    eBasic.total_hourly_cost []
      = some (cZero.baseWage + cZero.vacationPay + cZero.cppEmployer + cZero.eiEmployer
            + cZero.wsib + cZero.healthBenefits + cZero.cellPhone + cZero.fuelAllowance,
          cZero.cppEmployee + cZero.eiEmployee,
          (cZero.baseWage + cZero.vacationPay + cZero.cppEmployer + cZero.eiEmployer
            + cZero.wsib + cZero.healthBenefits + cZero.cellPhone + cZero.fuelAllowance)
            * ((eBasic.weekly_hours + eBasic.overtime_hours) * 52),
          (cZero.cppEmployee + cZero.eiEmployee)
            * ((eBasic.weekly_hours + eBasic.overtime_hours) * 52),
          []) := by
  have h : eBasic.cost_components [] = some (cZero, []) := by
    norm_num [Employee.cost_components, Employee.components_val, Employee.annual_hours,
      Employee.average_hourly_rate, Employee.annual_earnings, Employee.cap_warnings,
      Employee.capped_cpp_employer, Employee.capped_cpp_employee,
      Employee.capped_ei_employer, Employee.capped_ei_employee,
      Employee.raw_cpp_employer, Employee.raw_cpp_employee,
      Employee.raw_ei_employer, Employee.raw_ei_employee,
      Employee.wsib_component, eBasic, cZero,
      CPP_MAX_ANNUAL, EI_MAX_EMPLOYEE, EI_MAX_EMPLOYER]
  exact ⟨h, C5_totals eBasic cZero [] h⟩

/-- C3 counterexample: at `eCapBoundary` the raw annual CPP employer
amount equals the cap exactly, so the clamp does not reduce it — yet the
code emits the "CPP employer cap reached" warning, because lines 66-69
of the source test post-clamp equality with the maximum rather than a
strict reduction.  This falsifies the claim that a warning is emitted if
and only if the clamp strictly reduces the value. -/
theorem C3_boundary_counterexample :
    eCapBoundary.raw_cpp_employer = CPP_MAX_ANNUAL ∧
    ¬ CPP_MAX_ANNUAL < eCapBoundary.raw_cpp_employer ∧
    (eCapBoundary.cost_components []).map Prod.snd
      = some ["⚠️ CPP employer cap reached."] := by
  have h1 : eCapBoundary.raw_cpp_employer = CPP_MAX_ANNUAL := by
    norm_num [Employee.raw_cpp_employer, Employee.annual_earnings, Employee.annual_hours,
      Employee.average_hourly_rate, eCapBoundary, eBasic, CPP_MAX_ANNUAL]
  refine ⟨h1, by rw [h1]; exact lt_irrefl _, ?_⟩
  norm_num [Employee.cost_components, Employee.annual_hours,
    Employee.average_hourly_rate, Employee.annual_earnings, Employee.cap_warnings,
    Employee.capped_cpp_employer, Employee.capped_cpp_employee,
    Employee.capped_ei_employer, Employee.capped_ei_employee,
    Employee.raw_cpp_employer, Employee.raw_cpp_employee,
    Employee.raw_ei_employer, Employee.raw_ei_employee,
    eCapBoundary, eBasic, CPP_MAX_ANNUAL, EI_MAX_EMPLOYEE, EI_MAX_EMPLOYER]

/-- C3 amended: with applyCaps true, each of the four statutory lines is
clamped to its maximum, and each cap warning appears exactly once if and
only if the raw amount is greater than **or equal to** its maximum (the
code warns on post-clamp equality), rather than only on a strict
reduction. -/
theorem C3_caps_and_warnings (e : Employee) (c : CostComponents)
    (ws : List String) (hcaps : e.apply_caps = true)
    (h : e.cost_components [] = some (c, ws)) :
    (c.cppEmployer = min e.raw_cpp_employer CPP_MAX_ANNUAL / e.annual_hours ∧
     c.cppEmployee = min e.raw_cpp_employee CPP_MAX_ANNUAL / e.annual_hours ∧
     c.eiEmployer = min e.raw_ei_employer EI_MAX_EMPLOYER / e.annual_hours ∧
     c.eiEmployee = min e.raw_ei_employee EI_MAX_EMPLOYEE / e.annual_hours) ∧
    ws.count "⚠️ CPP employer cap reached."
      = (if CPP_MAX_ANNUAL ≤ e.raw_cpp_employer then 1 else 0) ∧
    ws.count "⚠️ CPP employee cap reached."
      = (if CPP_MAX_ANNUAL ≤ e.raw_cpp_employee then 1 else 0) ∧
    ws.count "⚠️ EI employer cap reached."
      = (if EI_MAX_EMPLOYER ≤ e.raw_ei_employer then 1 else 0) ∧
    ws.count "⚠️ EI employee cap reached."
      = (if EI_MAX_EMPLOYEE ≤ e.raw_ei_employee then 1 else 0) := by
  obtain ⟨-, hc, hws⟩ := cost_components_some h
  subst hc
  subst hws
  constructor
  · refine ⟨?_, ?_, ?_, ?_⟩ <;>
      simp [Employee.components_val, Employee.capped_cpp_employer,
        Employee.capped_cpp_employee, Employee.capped_ei_employer,
        Employee.capped_ei_employee, hcaps]
  · have n21 : ("⚠️ CPP employee cap reached." : String) ≠ "⚠️ CPP employer cap reached." := by decide
    have n31 : ("⚠️ EI employer cap reached." : String) ≠ "⚠️ CPP employer cap reached." := by decide
    have n41 : ("⚠️ EI employee cap reached." : String) ≠ "⚠️ CPP employer cap reached." := by decide
    have n12 : ("⚠️ CPP employer cap reached." : String) ≠ "⚠️ CPP employee cap reached." := by decide
    have n32 : ("⚠️ EI employer cap reached." : String) ≠ "⚠️ CPP employee cap reached." := by decide
    have n42 : ("⚠️ EI employee cap reached." : String) ≠ "⚠️ CPP employee cap reached." := by decide
    have n13 : ("⚠️ CPP employer cap reached." : String) ≠ "⚠️ EI employer cap reached." := by decide
    have n23 : ("⚠️ CPP employee cap reached." : String) ≠ "⚠️ EI employer cap reached." := by decide
    have n43 : ("⚠️ EI employee cap reached." : String) ≠ "⚠️ EI employer cap reached." := by decide
    have n14 : ("⚠️ CPP employer cap reached." : String) ≠ "⚠️ EI employee cap reached." := by decide
    have n24 : ("⚠️ CPP employee cap reached." : String) ≠ "⚠️ EI employee cap reached." := by decide
    have n34 : ("⚠️ EI employer cap reached." : String) ≠ "⚠️ EI employee cap reached." := by decide
    simp only [Employee.cap_warnings, hcaps, if_true, List.nil_append,
      List.count_append, Employee.capped_cpp_employer, Employee.capped_cpp_employee,
      Employee.capped_ei_employer, Employee.capped_ei_employee, min_eq_right_iff]
    refine ⟨?_, ?_, ?_, ?_⟩
    · rw [count_if_ne _ n21, count_if_ne _ n31, count_if_ne _ n41]
      simp only [Nat.add_zero]
      exact count_if_self _ _
    · rw [count_if_ne _ n12, count_if_ne _ n32, count_if_ne _ n42]
      simp only [Nat.add_zero, Nat.zero_add]
      exact count_if_self _ _
    · rw [count_if_ne _ n13, count_if_ne _ n23, count_if_ne _ n43]
      simp only [Nat.add_zero, Nat.zero_add]
      exact count_if_self _ _
    · rw [count_if_ne _ n14, count_if_ne _ n24, count_if_ne _ n34]
      simp only [Nat.add_zero, Nat.zero_add]
      exact count_if_self _ _

/-- C3 witness: the amended statement at the cap-boundary input, where
the CPP employer line sits exactly on its maximum. -/
theorem C3_caps_and_warnings_witness :
    eCapBoundary.apply_caps = true ∧
    eCapBoundary.cost_components []
      = some (eCapBoundary.components_val, ["⚠️ CPP employer cap reached."]) ∧
    ((eCapBoundary.components_val.cppEmployer
        = min eCapBoundary.raw_cpp_employer CPP_MAX_ANNUAL / eCapBoundary.annual_hours ∧
      eCapBoundary.components_val.cppEmployee
        = min eCapBoundary.raw_cpp_employee CPP_MAX_ANNUAL / eCapBoundary.annual_hours ∧
      eCapBoundary.components_val.eiEmployer
        = min eCapBoundary.raw_ei_employer EI_MAX_EMPLOYER / eCapBoundary.annual_hours ∧
      eCapBoundary.components_val.eiEmployee
        = min eCapBoundary.raw_ei_employee EI_MAX_EMPLOYEE / eCapBoundary.annual_hours) ∧
     List.count "⚠️ CPP employer cap reached." ["⚠️ CPP employer cap reached."]
       = (if CPP_MAX_ANNUAL ≤ eCapBoundary.raw_cpp_employer then 1 else 0) ∧
     List.count "⚠️ CPP employee cap reached." ["⚠️ CPP employer cap reached."]
       = (if CPP_MAX_ANNUAL ≤ eCapBoundary.raw_cpp_employee then 1 else 0) ∧
     List.count "⚠️ EI employer cap reached." ["⚠️ CPP employer cap reached."]
       = (if EI_MAX_EMPLOYER ≤ eCapBoundary.raw_ei_employer then 1 else 0) ∧
     List.count "⚠️ EI employee cap reached." ["⚠️ CPP employer cap reached."]
       = (if EI_MAX_EMPLOYEE ≤ eCapBoundary.raw_ei_employee then 1 else 0)) := by
  have h : eCapBoundary.cost_components []
      = some (eCapBoundary.components_val, ["⚠️ CPP employer cap reached."]) := by
    norm_num [Employee.cost_components, Employee.annual_hours,
      Employee.average_hourly_rate, Employee.annual_earnings, Employee.cap_warnings,
      Employee.capped_cpp_employer, Employee.capped_cpp_employee,
      Employee.capped_ei_employer, Employee.capped_ei_employee,
      Employee.raw_cpp_employer, Employee.raw_cpp_employee,
      Employee.raw_ei_employer, Employee.raw_ei_employee,
      eCapBoundary, eBasic, CPP_MAX_ANNUAL, EI_MAX_EMPLOYEE, EI_MAX_EMPLOYER]
  exact ⟨rfl, h, C3_caps_and_warnings eCapBoundary eCapBoundary.components_val
    ["⚠️ CPP employer cap reached."] rfl h⟩

/-- C6: increasing weeklyHours (all else fixed) never decreases any of
the four raw annual statutory amounts, and with applyCaps set each
post-cap amount stays at or below its maximum for the enlarged hours. -/
theorem C6_cap_monotonicity (e : Employee) (w : ℚ) (hv : ValidInput e)
    (hw : e.weekly_hours ≤ w) :
    (e.raw_cpp_employer ≤ ({e with weekly_hours := w} : Employee).raw_cpp_employer ∧
     e.raw_cpp_employee ≤ ({e with weekly_hours := w} : Employee).raw_cpp_employee ∧
     e.raw_ei_employer ≤ ({e with weekly_hours := w} : Employee).raw_ei_employer ∧
     e.raw_ei_employee ≤ ({e with weekly_hours := w} : Employee).raw_ei_employee) ∧
    (e.apply_caps = true →
      ({e with weekly_hours := w} : Employee).capped_cpp_employer ≤ CPP_MAX_ANNUAL ∧
      ({e with weekly_hours := w} : Employee).capped_cpp_employee ≤ CPP_MAX_ANNUAL ∧
      ({e with weekly_hours := w} : Employee).capped_ei_employer ≤ EI_MAX_EMPLOYER ∧
      ({e with weekly_hours := w} : Employee).capped_ei_employee ≤ EI_MAX_EMPLOYEE) := by
  obtain ⟨hb, hwh, ho, -, hcpp, hei, -⟩ := hv
  have hae : e.annual_earnings ≤ ({e with weekly_hours := w} : Employee).annual_earnings := by
    rw [annual_earnings_formula e hwh ho,
      annual_earnings_formula ({e with weekly_hours := w}) (le_trans hwh hw) ho]
    have hmul : e.weekly_hours * e.base_wage ≤ w * e.base_wage :=
      mul_le_mul_of_nonneg_right hw hb
    simp only
    nlinarith
  have hr : ∀ r : ℚ, 0 ≤ r →
      e.annual_earnings * r / 100
        ≤ ({e with weekly_hours := w} : Employee).annual_earnings * r / 100 := by
    intro r hr0
    exact (div_le_div_iff_of_pos_right (by norm_num)).mpr
      (mul_le_mul_of_nonneg_right hae hr0)
  constructor
  · exact ⟨hr e.cpp_rate hcpp, hr 5.95 (by norm_num), hr e.ei_rate hei,
      hr 1.64 (by norm_num)⟩
  · intro hcaps
    refine ⟨?_, ?_, ?_, ?_⟩ <;>
      simp [Employee.capped_cpp_employer, Employee.capped_cpp_employee,
        Employee.capped_ei_employer, Employee.capped_ei_employee, hcaps]

/-- C6 witness: the minimal valid employee with weekly hours raised from
1 to 2. -/
theorem C6_cap_monotonicity_witness :
    ValidInput eBasic ∧ eBasic.weekly_hours ≤ 2 ∧
    ((eBasic.raw_cpp_employer
        ≤ ({eBasic with weekly_hours := 2} : Employee).raw_cpp_employer ∧
      eBasic.raw_cpp_employee
        ≤ ({eBasic with weekly_hours := 2} : Employee).raw_cpp_employee ∧
      eBasic.raw_ei_employer
        ≤ ({eBasic with weekly_hours := 2} : Employee).raw_ei_employer ∧
      eBasic.raw_ei_employee
        ≤ ({eBasic with weekly_hours := 2} : Employee).raw_ei_employee) ∧
     (eBasic.apply_caps = true →
      ({eBasic with weekly_hours := 2} : Employee).capped_cpp_employer ≤ CPP_MAX_ANNUAL ∧
      ({eBasic with weekly_hours := 2} : Employee).capped_cpp_employee ≤ CPP_MAX_ANNUAL ∧
      ({eBasic with weekly_hours := 2} : Employee).capped_ei_employer ≤ EI_MAX_EMPLOYER ∧
      ({eBasic with weekly_hours := 2} : Employee).capped_ei_employee ≤ EI_MAX_EMPLOYEE)) :=
  ⟨by norm_num [ValidInput, eBasic], by norm_num [eBasic],
   C6_cap_monotonicity eBasic 2 (by norm_num [ValidInput, eBasic]) (by norm_num [eBasic])⟩

/-- C7 counterexample: with baseWage = 0, one overtime hour, premium on
and wsibRate = 1 > 0, both WSIB settings yield the same value (0), so
the claim that the two settings always differ under just
overtimeHours > 0, premium on and wsibRate > 0 is false. -/
theorem C7_zero_wage_counterexample :
    0 < eZeroWage.overtime_hours ∧ eZeroWage.apply_overtime = true ∧
    0 < eZeroWage.wsib_rate ∧
    ({eZeroWage with wsib_on_ot := true} : Employee).wsib_component
      = ({eZeroWage with wsib_on_ot := false} : Employee).wsib_component := by
  refine ⟨by norm_num [eZeroWage, eBasic], rfl, by norm_num [eZeroWage, eBasic], ?_⟩
  norm_num [Employee.wsib_component, Employee.average_hourly_rate, eZeroWage, eBasic]

/-- C7 amended: the WSIB component uses the blended rate when
wsibAppliesToOvertime is set or there is no overtime, and the straight
base wage otherwise; and the two settings give different values whenever
overtimeHours > 0, the premium is on, wsibRate > 0 **and baseWage > 0**
(with baseWage = 0 both sides are 0, see the counterexample). -/
theorem C7_wsib_base :
    (∀ e : Employee,
      e.wsib_component
        = if e.wsib_on_ot = true ∨ e.overtime_hours = 0
          then e.average_hourly_rate * e.wsib_rate / 100
          else e.base_wage * e.wsib_rate / 100) ∧
    (∀ e : Employee, ValidInput e → 0 < e.overtime_hours → e.apply_overtime = true →
      0 < e.wsib_rate → 0 < e.base_wage →
      ({e with wsib_on_ot := true} : Employee).wsib_component
        ≠ ({e with wsib_on_ot := false} : Employee).wsib_component) := by
  constructor
  · intro e
    rfl
  · intro e hv hot hao hr hb heq
    obtain ⟨-, hwh, -, -⟩ := hv
    have hT : 0 < e.weekly_hours + e.overtime_hours := by linarith
    have havg : e.base_wage < e.average_hourly_rate := by
      unfold Employee.average_hourly_rate
      dsimp only
      rw [if_neg hT.ne', hao]
      simp only [if_true]
      rw [lt_div_iff₀ hT]
      nlinarith
    have havg_eq : ({e with wsib_on_ot := true} : Employee).average_hourly_rate
        = e.average_hourly_rate := rfl
    have htrue : ({e with wsib_on_ot := true} : Employee).wsib_component
        = e.average_hourly_rate * e.wsib_rate / 100 := by
      unfold Employee.wsib_component
      simp [havg_eq]
    have hfalse : ({e with wsib_on_ot := false} : Employee).wsib_component
        = e.base_wage * e.wsib_rate / 100 := by
      unfold Employee.wsib_component
      simp [hot.ne']
    rw [htrue, hfalse] at heq
    field_simp at heq
    rcases heq with h1 | h2
    · exact absurd h1 (ne_of_gt havg)
    · exact absurd h2 hr.ne'

/-- C7 witness: at Example 2 input with wsibRate 2 the two settings
disagree (blended 22 vs base 20). -/
theorem C7_wsib_base_witness :
    ValidInput eWsib ∧ 0 < eWsib.overtime_hours ∧ eWsib.apply_overtime = true ∧
    0 < eWsib.wsib_rate ∧ 0 < eWsib.base_wage ∧
    ({eWsib with wsib_on_ot := true} : Employee).wsib_component
      ≠ ({eWsib with wsib_on_ot := false} : Employee).wsib_component :=
  ⟨by norm_num [ValidInput, eWsib, eExample2, eBasic],
   by norm_num [eWsib, eExample2, eBasic], rfl,
   by norm_num [eWsib, eExample2, eBasic],
   by norm_num [eWsib, eExample2, eBasic],
   C7_wsib_base.2 eWsib (by norm_num [ValidInput, eWsib, eExample2, eBasic])
     (by norm_num [eWsib, eExample2, eBasic]) rfl
     (by norm_num [eWsib, eExample2, eBasic])
     (by norm_num [eWsib, eExample2, eBasic])⟩

/-- C8: the employee-side raw (and capped) statutory amounts are
unchanged by any caller-supplied cpp/ei rate fields — they use the fixed
5.95 and 1.64 rates — while the employer-side raw amounts read the
caller-supplied fields; and the built-in rate set is
(5.95, 5.95, 1.64·1.4, 1.64) with 1.64·1.4 = 2.296 exactly. -/
theorem C8_fixed_employee_rates :
    (∀ (e : Employee) (r₁ r₂ : ℚ),
      ({e with cpp_rate := r₁, ei_rate := r₂} : Employee).raw_cpp_employee
          = e.raw_cpp_employee ∧
      ({e with cpp_rate := r₁, ei_rate := r₂} : Employee).raw_ei_employee
          = e.raw_ei_employee ∧
      ({e with cpp_rate := r₁, ei_rate := r₂} : Employee).capped_cpp_employee
          = e.capped_cpp_employee ∧
      ({e with cpp_rate := r₁, ei_rate := r₂} : Employee).capped_ei_employee
          = e.capped_ei_employee) ∧
    (∀ e : Employee,
      e.raw_cpp_employee = e.annual_earnings * 5.95 / 100 ∧
      e.raw_ei_employee = e.annual_earnings * 1.64 / 100 ∧
      e.raw_cpp_employer = e.annual_earnings * e.cpp_rate / 100 ∧
      e.raw_ei_employer = e.annual_earnings * e.ei_rate / 100) ∧
    fetch_contribution_rates = (5.95, 5.95, 1.64 * 1.4, 1.64) ∧
    fetch_contribution_rates = (5.95, 5.95, 2.296, 1.64) := by
  refine ⟨fun e r₁ r₂ => ⟨rfl, rfl, rfl, rfl⟩, fun e => ⟨rfl, rfl, rfl, rfl⟩, rfl, ?_⟩
  norm_num [fetch_contribution_rates]

/-- C8 witness: rate-field independence at the minimal employee with
arbitrary employer rates 7 and 9, plus the built-in rate tuple. -/
theorem C8_fixed_employee_rates_witness :
    ({eBasic with cpp_rate := 7, ei_rate := 9} : Employee).raw_cpp_employee
        = eBasic.raw_cpp_employee ∧
    ({eBasic with cpp_rate := 7, ei_rate := 9} : Employee).raw_ei_employee
        = eBasic.raw_ei_employee ∧
    fetch_contribution_rates = (5.95, 5.95, 1.64 * 1.4, 1.64) :=
  ⟨(C8_fixed_employee_rates.1 eBasic 7 9).1,
   (C8_fixed_employee_rates.1 eBasic 7 9).2.1,
   C8_fixed_employee_rates.2.2.1⟩

/-- C9: with the premium off the blended rate is exactly baseWage for
every non-negative hours combination; with the premium on it always lies
between baseWage and 1.5·baseWage inclusive. -/
theorem C9_blended_rate_bounds (e : Employee) (hb : 0 ≤ e.base_wage)
    (hw : 0 ≤ e.weekly_hours) (ho : 0 ≤ e.overtime_hours) :
    (e.apply_overtime = false → e.average_hourly_rate = e.base_wage) ∧
    (e.apply_overtime = true →
      e.base_wage ≤ e.average_hourly_rate ∧
      e.average_hourly_rate ≤ 1.5 * e.base_wage) := by
  by_cases hT : e.weekly_hours + e.overtime_hours = 0
  · have hrate : e.average_hourly_rate = e.base_wage := by
      simp [Employee.average_hourly_rate, hT]
    exact ⟨fun _ => hrate, fun _ => ⟨le_of_eq hrate.symm, by rw [hrate]; nlinarith⟩⟩
  · have hT' : 0 < e.weekly_hours + e.overtime_hours :=
      lt_of_le_of_ne (add_nonneg hw ho) (Ne.symm hT)
    constructor
    · intro hao
      unfold Employee.average_hourly_rate
      dsimp only
      rw [hao]
      simp only [Bool.false_eq_true, if_false, if_neg hT]
      rw [div_eq_iff hT]
      ring
    · intro hao
      unfold Employee.average_hourly_rate
      dsimp only
      rw [hao]
      simp only [if_true, if_neg hT]
      constructor
      · rw [le_div_iff₀ hT']
        nlinarith
      · rw [div_le_iff₀ hT']
        nlinarith

/-- C9 witness: the premium-on bounds at the Example 2 input
(20 ≤ 22 ≤ 30). -/
theorem C9_blended_rate_bounds_witness :
    (0 ≤ eExample2.base_wage ∧ 0 ≤ eExample2.weekly_hours ∧
      0 ≤ eExample2.overtime_hours) ∧
    (eExample2.apply_overtime = true →
      eExample2.base_wage ≤ eExample2.average_hourly_rate ∧
      eExample2.average_hourly_rate ≤ 1.5 * eExample2.base_wage) :=
  ⟨by norm_num [eExample2, eBasic],
   (C9_blended_rate_bounds eExample2 (by norm_num [eExample2, eBasic])
     (by norm_num [eExample2, eBasic]) (by norm_num [eExample2, eBasic])).2⟩

/-- C10: on non-negative input with positive total hours (equivalently, a
defined breakdown), every named component and all four totals are
non-negative. -/
theorem C10_nonneg (e : Employee) (c : CostComponents) (ws : List String)
    (t₁ t₂ t₃ t₄ : ℚ) (ws₂ : List String) (hv : ValidInput e)
    (h : e.cost_components [] = some (c, ws))
    (ht : e.total_hourly_cost [] = some (t₁, t₂, t₃, t₄, ws₂)) :
    (0 ≤ c.baseWage ∧ 0 ≤ c.vacationPay ∧ 0 ≤ c.cppEmployer ∧ 0 ≤ c.cppEmployee ∧
     0 ≤ c.eiEmployer ∧ 0 ≤ c.eiEmployee ∧ 0 ≤ c.wsib ∧ 0 ≤ c.healthBenefits ∧
     0 ≤ c.cellPhone ∧ 0 ≤ c.fuelAllowance) ∧
    0 ≤ t₁ ∧ 0 ≤ t₂ ∧ 0 ≤ t₃ ∧ 0 ≤ t₄ := by
  obtain ⟨hb, hwh, ho, hvac, hcpp, hei, hwsr, hhb, hcp, hfw⟩ := hv
  obtain ⟨hah, hc, hws⟩ := cost_components_some h
  have havg : 0 ≤ e.average_hourly_rate := average_hourly_rate_nonneg e hb hwh ho
  have hah0 : 0 ≤ e.annual_hours := annual_hours_nonneg e hwh ho
  have hae : 0 ≤ e.annual_earnings := annual_earnings_nonneg e hb hwh ho
  have hraw : ∀ r : ℚ, 0 ≤ r → 0 ≤ e.annual_earnings * r / 100 := fun r hr =>
    div_nonneg (mul_nonneg hae hr) (by norm_num)
  have hr1 : 0 ≤ e.raw_cpp_employer := hraw e.cpp_rate hcpp
  have hr2 : 0 ≤ e.raw_cpp_employee := hraw 5.95 (by norm_num)
  have hr3 : 0 ≤ e.raw_ei_employer := hraw e.ei_rate hei
  have hr4 : 0 ≤ e.raw_ei_employee := hraw 1.64 (by norm_num)
  have hm1 : 0 ≤ e.capped_cpp_employer := by
    unfold Employee.capped_cpp_employer
    split
    · exact le_min hr1 (by norm_num [CPP_MAX_ANNUAL])
    · exact hr1
  have hm2 : 0 ≤ e.capped_cpp_employee := by
    unfold Employee.capped_cpp_employee
    split
    · exact le_min hr2 (by norm_num [CPP_MAX_ANNUAL])
    · exact hr2
  have hm3 : 0 ≤ e.capped_ei_employer := by
    unfold Employee.capped_ei_employer
    split
    · exact le_min hr3 (by norm_num [EI_MAX_EMPLOYER])
    · exact hr3
  have hm4 : 0 ≤ e.capped_ei_employee := by
    unfold Employee.capped_ei_employee
    split
    · exact le_min hr4 (by norm_num [EI_MAX_EMPLOYEE])
    · exact hr4
  have hc1 : 0 ≤ (e.components_val).baseWage := havg
  have hc2 : 0 ≤ (e.components_val).vacationPay := by
    simp only [Employee.components_val]
    split
    · exact div_nonneg (mul_nonneg havg hvac) (by norm_num)
    · exact le_refl 0
  have hc3 : 0 ≤ (e.components_val).cppEmployer := div_nonneg hm1 hah0
  have hc4 : 0 ≤ (e.components_val).cppEmployee := div_nonneg hm2 hah0
  have hc5 : 0 ≤ (e.components_val).eiEmployer := div_nonneg hm3 hah0
  have hc6 : 0 ≤ (e.components_val).eiEmployee := div_nonneg hm4 hah0
  have hc7 : 0 ≤ (e.components_val).wsib := by
    unfold Employee.components_val Employee.wsib_component
    dsimp only
    split
    · exact div_nonneg (mul_nonneg havg hwsr) (by norm_num)
    · exact div_nonneg (mul_nonneg hb hwsr) (by norm_num)
  have hc8 : 0 ≤ (e.components_val).healthBenefits := hhb
  have hc9 : 0 ≤ (e.components_val).cellPhone :=
    div_nonneg (mul_nonneg hcp (by norm_num)) hah0
  have hc10 : 0 ≤ (e.components_val).fuelAllowance := by
    simp only [Employee.components_val]
    split
    · exact le_refl 0
    · exact div_nonneg hfw (add_nonneg hwh ho)
  subst hc
  unfold Employee.total_hourly_cost at ht
  rw [h] at ht
  simp only [Option.some.injEq, Prod.mk.injEq] at ht
  obtain ⟨h1, h2, h3, h4, -⟩ := ht
  have hemp : 0 ≤ (e.components_val).baseWage + (e.components_val).vacationPay
      + (e.components_val).cppEmployer + (e.components_val).eiEmployer
      + (e.components_val).wsib + (e.components_val).healthBenefits
      + (e.components_val).cellPhone + (e.components_val).fuelAllowance := by
    have := add_nonneg (add_nonneg (add_nonneg (add_nonneg (add_nonneg
      (add_nonneg (add_nonneg hc1 hc2) hc3) hc5) hc7) hc8) hc9) hc10
    linarith
  have hee : 0 ≤ (e.components_val).cppEmployee + (e.components_val).eiEmployee :=
    add_nonneg hc4 hc6
  refine ⟨⟨hc1, hc2, hc3, hc4, hc5, hc6, hc7, hc8, hc9, hc10⟩, ?_, ?_, ?_, ?_⟩
  · rw [← h1]; exact hemp
  · rw [← h2]; exact hee
  · rw [← h3]; exact mul_nonneg hemp hah0
  · rw [← h4]; exact mul_nonneg hee hah0

/-- C10 witness: the minimal valid employee, whose breakdown and totals
are all zero. -/
theorem C10_nonneg_witness :
    ValidInput eBasic ∧ eBasic.cost_components [] = some (cZero, []) ∧
    eBasic.total_hourly_cost [] = some (0, 0, 0, 0, []) ∧
    ((0 ≤ cZero.baseWage ∧ 0 ≤ cZero.vacationPay ∧ 0 ≤ cZero.cppEmployer ∧
      0 ≤ cZero.cppEmployee ∧ 0 ≤ cZero.eiEmployer ∧ 0 ≤ cZero.eiEmployee ∧
      0 ≤ cZero.wsib ∧ 0 ≤ cZero.healthBenefits ∧ 0 ≤ cZero.cellPhone ∧
      0 ≤ cZero.fuelAllowance) ∧
     (0 : ℚ) ≤ 0 ∧ (0 : ℚ) ≤ 0 ∧ (0 : ℚ) ≤ 0 ∧ (0 : ℚ) ≤ 0) := by
  have hv : ValidInput eBasic := by norm_num [ValidInput, eBasic]
  have h : eBasic.cost_components [] = some (cZero, []) := by
    norm_num [Employee.cost_components, Employee.components_val, Employee.annual_hours,
      Employee.average_hourly_rate, Employee.annual_earnings, Employee.cap_warnings,
      Employee.capped_cpp_employer, Employee.capped_cpp_employee,
      Employee.capped_ei_employer, Employee.capped_ei_employee,
      Employee.raw_cpp_employer, Employee.raw_cpp_employee,
      Employee.raw_ei_employer, Employee.raw_ei_employee,
      Employee.wsib_component, eBasic, cZero,
      CPP_MAX_ANNUAL, EI_MAX_EMPLOYEE, EI_MAX_EMPLOYER]
  have ht : eBasic.total_hourly_cost [] = some (0, 0, 0, 0, []) := by
    unfold Employee.total_hourly_cost
    rw [h]
    norm_num [cZero]
  exact ⟨hv, h, ht, C10_nonneg eBasic cZero [] 0 0 0 0 [] hv h ht⟩
